import Mathlib

set_option maxRecDepth 8000

/-!
Shallow embedding of `geonode/geoserver/tasks.py`, the celery tasks that
coordinate GeoServer catalog state with the local GeoNode registry, together
with theorems settling the frozen claims about that module.

The embedding keeps the module's control flow: straight-line Python with
`try/except/finally` blocks becomes explicit branching over environment
records whose boolean fields say which fallible external step raises; the
regex and string computations are translated literally.
-/

/-- Python exception classes that occur in the tasks module: `geoNodeException`
models `GeoNodeException` raised at the missing-CRS check (tasks.py line 471),
`layerDoesNotExist` models `Layer.DoesNotExist`, and `generic` stands for any
other raised `Exception`. -/
inductive PyClass where
  | baseException
  | exception
  | geoNodeException
  | layerDoesNotExist
  | generic
deriving DecidableEq, Repr

/-- Modelled from the spec: `GeoNodeException` is declared in the `geonode`
package root, outside the sources given here.  Per spec section 4.2 every
error these tasks raise is an ordinary uncaught application failure
("retried automatically on any uncaught failure"), so its class chain is
GeoNodeException < Exception < BaseException, and likewise for the other
raised classes. -/
def ancestors : PyClass → List PyClass
  | .baseException => [.baseException]
  | .exception => [.exception, .baseException]
  | .geoNodeException => [.geoNodeException, .exception, .baseException]
  | .layerDoesNotExist => [.layerDoesNotExist, .exception, .baseException]
  | .generic => [.generic, .exception, .baseException]

/-- Class check in the style of `isinstance`: does `c` inherit from (or
equal) `d`? -/
def isSubclassOf (c d : PyClass) : Bool := (ancestors c).contains d

/-- The `autoretry_for=(Exception, )` tuple that every task decorator in
tasks.py declares (e.g. lines 313-324 for `geoserver_post_save_layers`). -/
def autoretryFor : List PyClass := [.exception]

/-- Celery autoretry semantics: the task executor retries a raised error iff
its class matches one of the classes listed in `autoretry_for`. -/
def taskRetriesOn (e : PyClass) : Bool := autoretryFor.any (fun c => isSubclassOf e c)

/-- Numeric value of a decimal-digit character list, as Python `int` computes
it on the digits captured by the regex group. -/
def digitsVal (l : List Char) : Nat := l.foldl (fun n c => 10 * n + (c.toNat - 48)) 0

/-- The regex lookup from the spatial-reference correction,
tasks.py line 509: `re.match` against an optional `EPSG:` prefix followed by
4 to 6 digits, anchored at both ends; on success the numeric value of the
digit group is returned. -/
def sridRegexMatch (s : String) : Option Nat :=
  let cs := s.data
  let body := if cs.take 5 = ['E', 'P', 'S', 'G', ':'] then cs.drop 5 else cs
  if 4 ≤ body.length ∧ body.length ≤ 6 ∧ body.all Char.isDigit then
    some (digitsVal body)
  else none

/-- Fallback around the regex, tasks.py line 510:
`int(match.group('srid')) if match else 4326`. -/
def parseSridCode (s : String) : Nat := (sridRegexMatch s).getD 4326

/-- Outcome of the spatial-reference correction block (tasks.py lines
507-527): the `srid` column value written to the Layer row, and the SRID
embedded in the normalized `ll_bbox_polygon` polygon. -/
structure SridCorrectionResult where
  layerSrid : String
  llPolygonSrid : Nat
deriving DecidableEq, Repr

/-- The correction block itself: the primary atomic update embeds the
regex-parsed code in the polygon and writes `srid=srid`, the original
unparsed string, to the column; when that update raises, the nested fallback
(lines 518-527) forces the polygon SRID to 4326 and again writes
`srid=srid`. -/
def sridCorrection (srid : String) (primaryUpdateFails : Bool) : SridCorrectionResult :=
  if primaryUpdateFails then
    { layerSrid := srid, llPolygonSrid := 4326 }
  else
    { layerSrid := srid, llPolygonSrid := parseSridCode srid }

/-- The SRID fallback chain at tasks.py lines 465-471: a truthy (non-empty)
`instance.srid` is kept; with no SRID but a bounding polygon present the SRID
defaults to `EPSG:4326`; with neither, the code raises
`GeoNodeException("Invalid Projection. Layer is missing CRS!")`. -/
def sridFallback (srid : String) (hasBboxPolygon : Bool) : Except PyClass String :=
  if srid ≠ "" then .ok srid
  else if hasBboxPolygon then .ok "EPSG:4326"
  else .error .geoNodeException

/-- The advertised-flag push-back at tasks.py lines 428-431: under
`settings.RESOURCE_PUBLISHING`, when `instance.is_published` differs from
`gs_resource.advertised` the code assigns the literal `'true'` (here the
boolean `true`); otherwise the flag is left as it was. -/
def advertisedPushback (resourcePublishing isPublished advertised : Bool) : Bool :=
  if resourcePublishing then
    if isPublished != advertised then true else advertised
  else advertised

/-- GeoServer catalog state visible to `geoserver_create_style`: the style
names in the default workspace and the layer's current default style. -/
structure StyleCatalog where
  styles : List String
  layerDefault : Option String
deriving DecidableEq, Repr

/-- A catalog whose recorded default style, if any, is actually present in
the workspace (so `gs_catalog.delete(_default_style)` refers to a real
style). -/
def consistentCatalog (st : StyleCatalog) : Bool :=
  match st.layerDefault with
  | some d => st.styles.contains d
  | none => true

/-- Observable catalog states produced by the style-replacement block of
`geoserver_create_style` (tasks.py lines 175-189), in execution order: the
initial state; after `gs_catalog.create_style`; after `gs_catalog.save` of
the layer carrying the new default; after the best-effort
`gs_catalog.delete(_default_style)` (a failing delete is caught and leaves
the previous state). -/
def styleReplaceStates (st : StyleCatalog) (name : String) (deleteFails : Bool) :
    List StyleCatalog :=
  let s1 : StyleCatalog := { styles := name :: st.styles, layerDefault := st.layerDefault }
  let s2 : StyleCatalog := { s1 with layerDefault := some name }
  let s3 : StyleCatalog :=
    match st.layerDefault with
    | some old => if deleteFails then s2 else { s2 with styles := s2.styles.erase old }
    | none => s2
  [st, s1, s2, s3]

/-- Projection of a trace of catalog states to the layer's default style at
each observation point. -/
def defaultsOf (l : List StyleCatalog) : List (Option String) :=
  l.map (fun c => c.layerDefault)

/-- Net effect of `geoserver_create_style` on the catalog: when a style with
the requested name already exists in the workspace (tasks.py line 175) the
whole replacement block is skipped; otherwise the replacement runs and the
catalog ends in the last state of `styleReplaceStates`. -/
def createStyleOnCatalog (st : StyleCatalog) (name : String) (deleteFails : Bool) :
    StyleCatalog :=
  if name ∈ st.styles then st
  else
    let s2 : StyleCatalog := { styles := name :: st.styles, layerDefault := some name }
    match st.layerDefault with
    | some old => if deleteFails then s2 else { s2 with styles := s2.styles.erase old }
    | none => s2

/-- Environment of one `geoserver_finalize_upload` run (tasks.py lines
208-310): which external collaborators succeed.  Steps the code wraps in its
own `try/except` (the upload-session update, lines 238-244, and the temp-dir
cleanup, lines 300-305) have their failure flags swallowed; the other flags
mark unwrapped statements whose exceptions propagate. -/
structure FinalizeEnv where
  layerExists : Bool
  lockAcquired : Bool
  sessionUpdateRaises : Bool
  gsResourceFound : Bool
  catalogSaveRaises : Bool
  sldUploaded : Bool
  styleCallRaises : Bool
  moderationRaises : Bool
  hasPermissions : Bool
  permissionsRaises : Bool
  instanceSaveRaises : Bool
  cleanupRaises : Bool
deriving DecidableEq, Repr

/-- Observable outcome of a `geoserver_finalize_upload` run: the propagated
exception (if any), the Upload record's `complete` flag afterwards, how many
times the run marked it complete, and whether the final `upload_complete`
signal was sent. -/
structure FinalizeOutcome where
  raised : Option PyClass
  uploadComplete : Bool
  completeMarks : Nat
  signalSent : Bool
deriving DecidableEq, Repr

/-- Control-flow skeleton of `geoserver_finalize_upload` (tasks.py lines
208-310).  `Layer.objects.get` raises when the layer is missing; a failed
lock acquisition is a silent no-op; the session update's failure is caught;
the catalog fetch (lines 258-274) cannot raise thanks to its nested
`try/except`; then the unwrapped statements run in order — `gs_catalog.save`
on the fetched resource (line 280), the direct synchronous call of the style
task (lines 286-289, either `geoserver_set_style` or
`geoserver_create_style` depending on `sldUploaded`),
`handle_moderated_uploads` (line 292), `set_permissions` (line 296) when
permissions were passed, and `instance.save` (line 298) — and the first one
that raises aborts the run.  Only then does the `try/finally` run: the
cleanup's failure is caught and `upload.complete = True` is saved in the
`finally`, after which the signal is sent. -/
def geoserver_finalize_upload (env : FinalizeEnv) (complete0 : Bool) : FinalizeOutcome :=
  if !env.layerExists then
    { raised := some .layerDoesNotExist, uploadComplete := complete0,
      completeMarks := 0, signalSent := false }
  else if !env.lockAcquired then
    { raised := none, uploadComplete := complete0, completeMarks := 0, signalSent := false }
  else if env.gsResourceFound && env.catalogSaveRaises then
    { raised := some .generic, uploadComplete := complete0,
      completeMarks := 0, signalSent := false }
  else if env.styleCallRaises then
    { raised := some .generic, uploadComplete := complete0,
      completeMarks := 0, signalSent := false }
  else if env.moderationRaises then
    { raised := some .generic, uploadComplete := complete0,
      completeMarks := 0, signalSent := false }
  else if env.hasPermissions && env.permissionsRaises then
    { raised := some .generic, uploadComplete := complete0,
      completeMarks := 0, signalSent := false }
  else if env.instanceSaveRaises then
    { raised := some .generic, uploadComplete := complete0,
      completeMarks := 0, signalSent := false }
  else
    { raised := none, uploadComplete := true, completeMarks := 1, signalSent := true }

/-- Environment of one `geoserver_post_save_layers` run past the lock and the
remote-service/tile-store early exits (tasks.py lines 365-577). -/
structure PostSaveEnv where
  newUpload : Bool
  baseFileNone : Bool
  midStepRaises : Bool
  gsFound : Bool
  sridResolved : Bool
  bboxPolygonPresent : Bool
  finalSessionUpdateRaises : Bool
deriving DecidableEq, Repr

/-- Observable outcome of a `geoserver_post_save_layers` run: the propagated
exception (if any), whether the run ended through the no-base-file early
return, and the resource's dirty flag at exit. -/
structure PostSaveOutcome where
  raised : Option PyClass
  returnedEarly : Bool
  dirty : Bool
deriving DecidableEq, Repr

/-- Control-flow skeleton of `geoserver_post_save_layers` after the lock and
the remote/tile early exits.  `instance.set_dirty_state()` (line 367) runs
first, so the dirty flag is true on every subsequent path.  On the new-upload
path, a missing base file returns early (line 381).  `midStepRaises` stands
for any unwrapped statement between there and the cleanup block raising
(e.g. `geoserver_upload`, `fetch_gs_resource`, the point-of-contact profile
lookup at line 418).  When the catalog resource was found but neither an
SRID nor a bounding polygon is resolvable, line 471 raises
`GeoNodeException`.  Only executions that fall through to lines 567-573 run
`clear_dirty_state`: its `finally` covers just the session-update statement,
whose own failure is caught. -/
def geoserver_post_save_layers (env : PostSaveEnv) : PostSaveOutcome :=
  if env.newUpload && env.baseFileNone then
    { raised := none, returnedEarly := true, dirty := true }
  else if env.midStepRaises then
    { raised := some .generic, returnedEarly := false, dirty := true }
  else if env.gsFound && !env.sridResolved && !env.bboxPolygonPresent then
    { raised := some .geoNodeException, returnedEarly := false, dirty := true }
  else
    { raised := none, returnedEarly := false, dirty := false }

/-- The bounded-retry fetch of `geoserver_post_save_layers` (tasks.py lines
369-396), with the while loop rendered by structural recursion on the number
of loop iterations still allowed (`maxTries - tries`, which the loop guard
`_tries < _max_tries` makes the remaining-iteration count): `find` gives the
catalog's answer to the n-th fetch call, `gs` is the result of the last call,
and `attempts` counts calls made so far. -/
def fetchAttempts (find : Nat → Bool) : Nat → Bool → Nat → Bool × Nat
  | 0, gs, attempts => (gs, attempts)
  | fuel + 1, gs, attempts =>
    if gs then (gs, attempts)
    else fetchAttempts find fuel (find attempts) (attempts + 1)

/-- The whole fetch sequence: one call before the loop (line 393), then the
loop allowing up to `maxTries` further calls.  Returns whether a catalog
resource was observed and the total number of fetch calls issued. -/
def fetchGsResourceLoop (find : Nat → Bool) (maxTries : Nat) : Bool × Nat :=
  fetchAttempts find maxTries (find 0) 1

/-- Default of `getattr(ogc_server_settings, "MAX_RETRIES", 2)`
(tasks.py line 372). -/
def maxRetriesDefault : Nat := 2

/-- A catalog that answers not-found to the first `k` fetch calls and
success to every later one. -/
def catalogFoundFromAttempt (k : Nat) : Nat → Bool := fun n => decide (k ≤ n)

/-- Test input for the finalizer model: everything in place, but
`set_permissions` raises (spec 4.5 step 6 notes these failures are not
swallowed). -/
def finalizePermissionFailureEnv : FinalizeEnv :=
  { layerExists := true, lockAcquired := true, sessionUpdateRaises := false,
    gsResourceFound := true, catalogSaveRaises := false, sldUploaded := false,
    styleCallRaises := false, moderationRaises := false, hasPermissions := true,
    permissionsRaises := true, instanceSaveRaises := false, cleanupRaises := false }

/-- Test input for the finalizer model: everything in place, but the direct
call of the style task raises (e.g. `gs_catalog.create_style` failing inside
`geoserver_create_style`, whose catalog statements are unwrapped). -/
def finalizeStyleFailureEnv : FinalizeEnv :=
  { layerExists := true, lockAcquired := true, sessionUpdateRaises := false,
    gsResourceFound := true, catalogSaveRaises := false, sldUploaded := false,
    styleCallRaises := true, moderationRaises := false, hasPermissions := false,
    permissionsRaises := false, instanceSaveRaises := false, cleanupRaises := false }

/-- Test input for the finalizer model: a fully successful pass in which only
the swallowed steps (session update, temp-dir cleanup) fail. -/
def finalizeCleanupFailureEnv : FinalizeEnv :=
  { layerExists := true, lockAcquired := true, sessionUpdateRaises := true,
    gsResourceFound := true, catalogSaveRaises := false, sldUploaded := true,
    styleCallRaises := false, moderationRaises := false, hasPermissions := true,
    permissionsRaises := false, instanceSaveRaises := false, cleanupRaises := true }

/-- Test input for the reconciler model: a fresh upload whose upload session
carries no base file, hitting the early return at tasks.py line 381. -/
def postSaveNoBaseFileEnv : PostSaveEnv :=
  { newUpload := true, baseFileNone := true, midStepRaises := false, gsFound := false,
    sridResolved := false, bboxPolygonPresent := false, finalSessionUpdateRaises := false }

/-- Test input for the reconciler model: a normal pass whose final
session-update statement fails (the failure is caught, and the `finally`
still clears the dirty flag). -/
def postSaveHappyEnv : PostSaveEnv :=
  { newUpload := false, baseFileNone := false, midStepRaises := false, gsFound := true,
    sridResolved := true, bboxPolygonPresent := true, finalSessionUpdateRaises := true }

deriving instance DecidableEq for Except

/-- A style already present in the catalog workspace makes
`geoserver_create_style` skip the whole replacement block (tasks.py
line 175). -/
theorem createStyle_skip (st : StyleCatalog) (name : String) (df : Bool)
    (h : name ∈ st.styles) : createStyleOnCatalog st name df = st := by
  unfold createStyleOnCatalog
  rw [if_pos h]

/-- After one run of `geoserver_create_style` on a consistent catalog, the
requested style name is present in the workspace. -/
theorem createStyle_mem_of_consistent (st : StyleCatalog) (name : String) (df : Bool)
    (hc : consistentCatalog st = true) :
    name ∈ (createStyleOnCatalog st name df).styles := by
  unfold createStyleOnCatalog
  by_cases h : name ∈ st.styles
  · rw [if_pos h]; exact h
  · rw [if_neg h]
    cases hd : st.layerDefault with
    | none => simp
    | some old =>
      have hold : old ∈ st.styles := by
        unfold consistentCatalog at hc
        rw [hd] at hc
        simpa using hc
      have hne : name ≠ old := fun e => h (e ▸ hold)
      cases df with
      | true => simp
      | false =>
        simp only [Bool.false_eq_true, if_false]
        exact (List.mem_erase_of_ne hne).mpr (List.mem_cons_self _ _)

/-- Upper bound on the number of fetch calls the retry loop can issue. -/
theorem fetchAttempts_le (find : Nat → Bool) :
    ∀ (fuel : Nat) (gs : Bool) (attempts : Nat),
      (fetchAttempts find fuel gs attempts).2 ≤ attempts + fuel := by
  intro fuel
  induction fuel with
  | zero => intro gs attempts; simp [fetchAttempts]
  | succ n ih =>
    intro gs attempts
    cases gs with
    | true => simp [fetchAttempts]
    | false =>
      simp only [fetchAttempts, Bool.false_eq_true, if_false]
      have := ih (find attempts) (attempts + 1)
      omega

/-- Against a catalog that starts answering success at call `k`, the loop
ends having observed the resource whenever enough fuel remains. -/
theorem fetchAttempts_success (k : Nat) :
    ∀ (fuel j : Nat), k ≤ j + fuel →
      (fetchAttempts (catalogFoundFromAttempt k) fuel (decide (k ≤ j)) (j + 1)).1 = true := by
  intro fuel
  induction fuel with
  | zero =>
    intro j h
    simp only [fetchAttempts, decide_eq_true_eq]
    omega
  | succ n ih =>
    intro j h
    by_cases hk : k ≤ j
    · simp [fetchAttempts, hk]
    · have hd : decide (k ≤ j) = false := by simp [hk]
      simp only [fetchAttempts, hd, Bool.false_eq_true, if_false]
      have he : catalogFoundFromAttempt k (j + 1) = decide (k ≤ j + 1) := rfl
      rw [he]
      exact ih (j + 1) (by omega)

/-- Claim C1 counterexample: a new upload whose session has no base file hits
the early return at tasks.py line 381 after `set_dirty_state`, and the
invocation ends with the dirty flag still set — the claimed guaranteed
clearing on every exit path fails. -/
theorem dirty_flag_survives_early_return :
    (geoserver_post_save_layers postSaveNoBaseFileEnv).returnedEarly = true ∧
    (geoserver_post_save_layers postSaveNoBaseFileEnv).raised = none ∧
    (geoserver_post_save_layers postSaveNoBaseFileEnv).dirty = true := by
  decide

/-- Claim C1 (amended): the dirty flag is set at entry and cleared only by
executions that fall through to the final session-update block, whose
`finally` covers just that statement; it remains set on the no-base-file
early return and when a failure such as the missing-CRS `GeoNodeException`
is raised before that block. -/
theorem dirty_flag_cleared_only_on_fallthrough (env : PostSaveEnv) :
    ((geoserver_post_save_layers env).raised = none →
      (geoserver_post_save_layers env).returnedEarly = false →
      (geoserver_post_save_layers env).dirty = false) ∧
    ((geoserver_post_save_layers env).returnedEarly = true →
      (geoserver_post_save_layers env).dirty = true) ∧
    ((geoserver_post_save_layers env).raised = some PyClass.geoNodeException →
      (geoserver_post_save_layers env).dirty = true) := by
  rcases env with ⟨a, b, c, d, e, f, g⟩
  revert a b c d e f g
  decide

/-- Witness for the amended C1 theorem at a concrete run that reaches the
cleanup block (with the session update itself failing). -/
theorem dirty_flag_cleared_only_on_fallthrough_witness :
    (geoserver_post_save_layers postSaveHappyEnv).dirty = false :=
  (dirty_flag_cleared_only_on_fallthrough postSaveHappyEnv).1 (by decide) (by decide)

/-- Claim C2 counterexample: with `set_permissions` raising (a prior
finalization step, tasks.py line 296), the run aborts before the cleanup
block and the Upload record is never marked complete, contradicting the
claimed marking regardless of prior-step failure. -/
theorem upload_abort_skips_complete_mark :
    (geoserver_finalize_upload finalizePermissionFailureEnv false).uploadComplete = false ∧
    (geoserver_finalize_upload finalizePermissionFailureEnv false).completeMarks = 0 ∧
    (geoserver_finalize_upload finalizePermissionFailureEnv false).raised = some PyClass.generic := by
  decide

/-- Claim C2 (amended): the Upload record is marked complete exactly once,
after the best-effort cleanup, tolerating failure of the cleanup and of the
wrapped session update — but only when none of the unwrapped prior steps
(catalog save, the synchronous style call, moderation handling, permission
application, resource save) raises; such a raise aborts the run before the
mark. -/
theorem upload_complete_after_cleanup (env : FinalizeEnv) (c0 : Bool)
    (h1 : env.layerExists = true) (h2 : env.lockAcquired = true)
    (h3 : (env.gsResourceFound && env.catalogSaveRaises) = false)
    (h4 : env.styleCallRaises = false) (h5 : env.moderationRaises = false)
    (h6 : (env.hasPermissions && env.permissionsRaises) = false)
    (h7 : env.instanceSaveRaises = false) :
    (geoserver_finalize_upload env c0).uploadComplete = true ∧
    (geoserver_finalize_upload env c0).completeMarks = 1 ∧
    (geoserver_finalize_upload env c0).raised = none := by
  simp [geoserver_finalize_upload, h1, h2, h3, h4, h5, h6, h7]

/-- Witness for the amended C2 theorem at a run whose cleanup and session
update both fail. -/
theorem upload_complete_after_cleanup_witness :
    (geoserver_finalize_upload finalizeCleanupFailureEnv false).uploadComplete = true :=
  (upload_complete_after_cleanup finalizeCleanupFailureEnv false rfl rfl rfl rfl rfl rfl rfl).1

/-- Claim C3: against a catalog that is not-found for the first `k` fetch
calls with `k < MAX_RETRIES` and then succeeds, the bounded-retry fetch of
the reconciler ends having observed the resource, and no execution issues
more than `MAX_RETRIES + 1` fetch calls. -/
theorem bounded_retry_fetch_observes_success (k maxTries : Nat) (h : k < maxTries) :
    (fetchGsResourceLoop (catalogFoundFromAttempt k) maxTries).1 = true ∧
    (∀ (find : Nat → Bool) (m : Nat), (fetchGsResourceLoop find m).2 ≤ m + 1) := by
  refine ⟨?_, ?_⟩
  · exact fetchAttempts_success k maxTries 0 (by omega)
  · intro find m
    have hb := fetchAttempts_le find m (find 0) 1
    show (fetchAttempts find m (find 0) 1).2 ≤ m + 1
    omega

/-- Witness for C3 with `k = 1` failures and the default `MAX_RETRIES = 2`. -/
theorem bounded_retry_fetch_observes_success_witness :
    (fetchGsResourceLoop (catalogFoundFromAttempt 1) maxRetriesDefault).1 = true :=
  (bounded_retry_fetch_observes_success 1 maxRetriesDefault (by decide)).1

/-- Claim C4 counterexample: with no SRID and no bounding polygon the
reconciler raises `GeoNodeException`, but the task's
`autoretry_for=(Exception, )` policy retries that class, contradicting the
claim that the configuration error is not retried. -/
theorem missing_crs_error_is_retried :
    sridFallback "" false = Except.error PyClass.geoNodeException ∧
    taskRetriesOn PyClass.geoNodeException = true := by
  exact ⟨rfl, by decide⟩

/-- Claim C4 (amended): with no resolvable SRID the reconciler defaults to
EPSG:4326 when a bounding polygon exists and otherwise raises the
domain-specific `GeoNodeException`; that error propagates uncaught and is
auto-retried by the task executor, whose policy retries every Exception. -/
theorem srid_fallback_and_retry (b : Bool) (s : String) (hs : s ≠ "") :
    sridFallback "" b =
      (if b then Except.ok "EPSG:4326" else Except.error PyClass.geoNodeException) ∧
    sridFallback s b = Except.ok s ∧
    taskRetriesOn PyClass.geoNodeException = true := by
  refine ⟨by cases b <;> rfl, ?_, by decide⟩
  simp [sridFallback, hs]

/-- Witness for the amended C4 theorem at a resolvable SRID. -/
theorem srid_fallback_and_retry_witness :
    sridFallback "EPSG:2154" false = Except.ok "EPSG:2154" :=
  (srid_fallback_and_retry false "EPSG:2154" (by decide)).2.1

/-- Claim C5: during style replacement, with a previously-assigned default
style present, every observable catalog state keeps some default style, the
sequence of observed defaults is old, old, new, new (the save of the
reassignment precedes the delete of the old style), and any state in which
the old style is already gone has the new style as default. -/
theorem style_replacement_never_defaultless (st : StyleCatalog) (name old : String)
    (df : Bool) (h1 : st.layerDefault = some old) (h2 : old ∈ st.styles)
    (h3 : name ∉ st.styles) :
    defaultsOf (styleReplaceStates st name df) =
      [some old, some old, some name, some name] ∧
    (∀ c ∈ styleReplaceStates st name df, c.layerDefault.isSome = true) ∧
    (∀ c ∈ styleReplaceStates st name df, old ∉ c.styles → c.layerDefault = some name) := by
  refine ⟨?_, ?_, ?_⟩
  · cases df <;> simp [defaultsOf, styleReplaceStates, h1]
  · intro c hc
    cases df <;> simp only [styleReplaceStates, h1, List.mem_cons, List.not_mem_nil,
      or_false] at hc <;>
      rcases hc with rfl | rfl | rfl | rfl <;> simp [h1]
  · intro c hc hold
    have hmem : old ∈ name :: st.styles := List.mem_cons_of_mem _ h2
    cases df <;> simp only [styleReplaceStates, h1, List.mem_cons, List.not_mem_nil,
      or_false] at hc <;> rcases hc with rfl | rfl | rfl | rfl
    · exact absurd h2 hold
    · exact absurd hmem hold
    · rfl
    · rfl
    · exact absurd h2 hold
    · exact absurd hmem hold
    · rfl
    · rfl

/-- Witness for C5 on a one-style catalog whose default is replaced. -/
theorem style_replacement_never_defaultless_witness :
    defaultsOf (styleReplaceStates ⟨["alpha"], some "alpha"⟩ "beta" false) =
      [some "alpha", some "alpha", some "beta", some "beta"] :=
  (style_replacement_never_defaultless ⟨["alpha"], some "alpha"⟩ "beta" "alpha" false
    rfl (by decide) (by decide)).1

/-- Claim C6 counterexample: the style step is a direct synchronous call, so
when it raises the finalizer aborts — the completion signal is never sent and
the Upload record is never marked complete — contradicting the claimed
fire-and-forget independence of the subsequent stages. -/
theorem style_call_failure_blocks_finalizer :
    (geoserver_finalize_upload finalizeStyleFailureEnv false).signalSent = false ∧
    (geoserver_finalize_upload finalizeStyleFailureEnv false).uploadComplete = false ∧
    (geoserver_finalize_upload finalizeStyleFailureEnv false).raised = some PyClass.generic := by
  decide

/-- Claim C6 (amended): the finalizer invokes the style assignment
synchronously in-process (tasks.py lines 286-289 call the task functions
directly); its subsequent stages run only when that call returns, and an
uncaught exception from it aborts the finalizer before the completion mark
and signal. -/
theorem style_call_synchronous_coupling (env : FinalizeEnv) (c0 : Bool)
    (h1 : env.layerExists = true) (h2 : env.lockAcquired = true)
    (h3 : (env.gsResourceFound && env.catalogSaveRaises) = false) :
    (env.styleCallRaises = true →
      (geoserver_finalize_upload env c0).raised = some PyClass.generic ∧
      (geoserver_finalize_upload env c0).signalSent = false ∧
      (geoserver_finalize_upload env c0).uploadComplete = c0 ∧
      (geoserver_finalize_upload env c0).completeMarks = 0) ∧
    (env.styleCallRaises = false → env.moderationRaises = false →
      (env.hasPermissions && env.permissionsRaises) = false →
      env.instanceSaveRaises = false →
      (geoserver_finalize_upload env c0).signalSent = true) := by
  constructor
  · intro hs
    simp [geoserver_finalize_upload, h1, h2, h3, hs]
  · intro hs h5 h6 h7
    simp [geoserver_finalize_upload, h1, h2, h3, hs, h5, h6, h7]

/-- Witness for the amended C6 theorem at the failing-style-call run. -/
theorem style_call_synchronous_coupling_witness :
    (geoserver_finalize_upload finalizeStyleFailureEnv false).signalSent = false :=
  ((style_call_synchronous_coupling finalizeStyleFailureEnv false rfl rfl rfl).1 rfl).2.1

/-- Claim C7: rerunning the finalizer on an already-complete Upload record
(with no unwrapped step raising) leaves it complete, and rerunning the style
creation is a no-op on the catalog: creation and default-style reassignment
are skipped when a style with the requested name already exists, so no
duplicate style appears. -/
theorem finalize_and_style_idempotent (env : FinalizeEnv) (st : StyleCatalog)
    (name : String) (df df2 : Bool) (hc : consistentCatalog st = true)
    (h1 : env.layerExists = true) (h2 : env.lockAcquired = true)
    (h3 : (env.gsResourceFound && env.catalogSaveRaises) = false)
    (h4 : env.styleCallRaises = false) (h5 : env.moderationRaises = false)
    (h6 : (env.hasPermissions && env.permissionsRaises) = false)
    (h7 : env.instanceSaveRaises = false) :
    (geoserver_finalize_upload env true).uploadComplete = true ∧
    createStyleOnCatalog (createStyleOnCatalog st name df) name df2 =
      createStyleOnCatalog st name df := by
  refine ⟨?_, ?_⟩
  · simp [geoserver_finalize_upload, h1, h2, h3, h4, h5, h6, h7]
  · exact createStyle_skip _ _ _ (createStyle_mem_of_consistent st name df hc)

/-- Witness for C7 at a concrete catalog and a rerun of the finalizer. -/
theorem finalize_and_style_idempotent_witness :
    createStyleOnCatalog (createStyleOnCatalog ⟨["alpha"], some "alpha"⟩ "beta" false)
      "beta" false = createStyleOnCatalog ⟨["alpha"], some "alpha"⟩ "beta" false :=
  (finalize_and_style_idempotent finalizeCleanupFailureEnv ⟨["alpha"], some "alpha"⟩
    "beta" false false (by decide) rfl rfl rfl rfl rfl rfl rfl).2

/-- Claim C8: the spatial-reference parser of the bounding-box correction
maps the string EPSG:3857 to the code 3857 and the bare string 4326 to 4326,
and unparseable input such as the string garbage falls back to 4326; the
parser is a total function, so no input raises. -/
theorem srid_parser_fallback_chain :
    parseSridCode "EPSG:3857" = 3857 ∧
    parseSridCode "4326" = 4326 ∧
    parseSridCode "garbage" = 4326 ∧
    sridRegexMatch "EPSG:3857" = some 3857 ∧
    sridRegexMatch "garbage" = none := by
  decide

/-- Claim C9 counterexample: with publishing enabled, an unpublished resource
whose catalog state is advertised differs from its published state, yet the
push-back assigns the constant true — the flag does not end up reflecting the
resource's published state (which is false). -/
theorem advertised_constant_true_counterexample :
    advertisedPushback true false true = true ∧
    advertisedPushback true false true ≠ false := by
  decide

/-- Claim C9 (amended): under the publish setting the advertised flag is
touched only when the local published state differs from the catalog's
advertised state, but it is then assigned the constant true (the literal
'true'), not the published state; so an unpublished-but-advertised resource
stays advertised, and the flag is unchanged when the states agree or the
setting is off. -/
theorem advertised_pushback_amended (isP adv : Bool) (h : isP ≠ adv) :
    advertisedPushback false isP adv = adv ∧
    advertisedPushback true isP isP = isP ∧
    advertisedPushback true isP adv = true := by
  cases isP <;> cases adv <;> revert h <;> decide

/-- Witness for the amended C9 theorem at a published resource not yet
advertised. -/
theorem advertised_pushback_amended_witness :
    advertisedPushback true true false = true :=
  (advertised_pushback_amended true false (by decide)).2.2

/-- Claim C10: the spatial-reference correction applies the parsed numeric
code (or the 4326 fallback of the nested update) only to the normalized
polygon's embedded SRID, while the Layer's srid column receives the original
string in both the primary and the fallback update, so an unparseable SRID
persists verbatim on the record. -/
theorem srid_correction_parses_polygon_only :
    (∀ (s : String) (b : Bool), (sridCorrection s b).layerSrid = s) ∧
    (∀ s : String, (sridCorrection s false).llPolygonSrid = parseSridCode s) ∧
    (∀ s : String, (sridCorrection s true).llPolygonSrid = 4326) ∧
    (sridCorrection "garbage" false).layerSrid = "garbage" ∧
    (sridCorrection "garbage" false).llPolygonSrid = 4326 := by
  refine ⟨?_, ?_, ?_, by decide, by decide⟩
  · intro s b; cases b <;> rfl
  · intro s; rfl
  · intro s; rfl
